import Mathlib

/-!
Shallow embedding of the libp2p x509 self-certification verifier
(src/misc/x509/src/verifier.rs, src/misc/x509/src/lib.rs) and of the QUIC
transport's dial/listen/muxer logic (src/transports/quic/src/lib.rs).

Bytes are modelled as `Nat` (values < 256 where encodings are produced);
external collaborators (the identity key's `verify`/`from_protobuf_encoding`,
the external `x509::parse_certificate`, webpki's data-algorithm-signature
check) are parameters of the functions that consume them, exactly where the
Rust code calls out to them.
-/

/-- webpki::Error values used by the verifier. -/
inductive WError where
  | BadDER
  | UnknownIssuer
  | UnsupportedCriticalExtension
  | ExtensionValueInvalid
  | otherError
deriving DecidableEq, Repr

/-- rustls::TLSError values used by the verifier. -/
inductive TLSError where
  | NoCertificatesPresented
  | WebPKIError (e : WError)
  | FailedToGetCurrentTime
deriving DecidableEq, Repr

/-- A libp2p public key, identified with its canonical protobuf encoding
(the spec's "canonical portable encoding"): the identity key type is an
external collaborator consumed as an opaque capability. -/
def PublicKey : Type := List Nat

instance : DecidableEq PublicKey := inferInstanceAs (DecidableEq (List Nat))

instance : Repr PublicKey := inferInstanceAs (Repr (List Nat))

/-- `PublicKey::from_protobuf_encoding`: external collaborator, a parameter. -/
def PkDecoder : Type := List Nat → Option PublicKey

/-- `PublicKey::verify(msg, signature)`: external collaborator, a parameter
(key, message, signature). -/
def PkVerifier : Type := PublicKey → List Nat → List Nat → Bool

/-- `LIBP2P_SIGNING_PREFIX` from src/misc/x509/src/lib.rs line 55: the bytes
of the 21-character ASCII string "libp2p-tls-handshake:". -/
def LIBP2P_SIGNING_PREFIX_BYTES : List Nat :=
  [108, 105, 98, 112, 50, 112, 45, 116, 108, 115, 45,
   104, 97, 110, 100, 115, 104, 97, 107, 101, 58]

/-- `LIBP2P_SIGNING_PREFIX_LENGTH` from src/misc/x509/src/lib.rs line 56. -/
def LIBP2P_SIGNING_PREFIX_LENGTH : Nat := LIBP2P_SIGNING_PREFIX_BYTES.length

/-- `LIBP2P_OID_BYTES` from src/misc/x509/src/lib.rs line 57. -/
def LIBP2P_OID_BYTES : List Nat := [43, 6, 1, 4, 1, 131, 162, 90, 1, 1]

/-- One X.509 extension as handed to the `iterate` callback by the external
`x509` crate: object identifier bytes, critical flag, raw payload. -/
structure Extension where
  oid : List Nat
  critical : Bool
  value : List Nat
deriving DecidableEq, Repr

/-- The view of a parsed certificate that verifier.rs consumes from the
external `x509::parse_certificate`: its extension list, the raw
subject-public-key-info key bytes, and the outcome of webpki's
`verify_data_algorithm_signature` self-signature check at a given time
(external, hence a function field). -/
structure X509Certificate where
  extensions : List Extension
  spkiKey : List Nat
  dasCheck : Nat → Except WError Unit

/-- `x509::parse_certificate`: external collaborator, a parameter. -/
def X509Parser : Type := List Nat → Except WError X509Certificate

/-- The decoded libp2p extension (verifier.rs lines 120-123). -/
structure Libp2pExtension where
  peer_key : PublicKey
  signature : List Nat
deriving DecidableEq, Repr

/-- The length part of ring's `der::read_tag_and_get_value`: short form,
0x81, or 0x82, with minimality enforced as in ring (a 0x81 length must be
≥ 128, a 0x82 length ≥ 256). -/
def readDerLength : List Nat → Option (Nat × List Nat)
  | [] => none
  | b :: r =>
    if b < 128 then some (b, r)
    else if b = 129 then
      match r with
      | [] => none
      | s :: r2 => if s < 128 then none else some (s, r2)
    else if b = 130 then
      match r with
      | s :: t :: r2 => if s * 256 + t < 256 then none else some (s * 256 + t, r2)
      | _ => none
    else none

/-- ring's `der::read_tag_and_get_value` over a byte list: reads one DER
TLV, returning (tag, value, remaining input). High-tag-number form is
rejected. -/
def readTagAndGetValue (input : List Nat) : Option (Nat × List Nat × List Nat) :=
  match input with
  | [] => none
  | tag :: r1 =>
    if tag % 32 = 31 then none
    else
      match readDerLength r1 with
      | none => none
      | some (len, r2) =>
        if len ≤ r2.length then some (tag, r2.take len, r2.drop len)
        else none

/-- ring's `der::bit_string_with_no_unused_bits`: a DER TLV with tag 0x03
whose first content byte (the unused-bit count) is zero; yields the bit
bytes and the remaining input. -/
def bitStringNoUnusedBits (input : List Nat) : Option (List Nat × List Nat) :=
  match readTagAndGetValue input with
  | none => none
  | some (tag, contents, rest) =>
    if tag = 3 then
      match contents with
      | 0 :: bits => some (bits, rest)
      | _ => none
    else none

/-- `parse_libp2p_extension` (verifier.rs lines 130-145): the payload is a
DER SEQUENCE (tag 0x30) of two bit strings with no unused bits, fully
consuming both the sequence and the outer input; the first bit string must
decode as a public key. Every failure is the single
`ExtensionValueInvalid` error. -/
def parse_libp2p_extension (decodePk : PkDecoder) (extension : List Nat) :
    Except WError Libp2pExtension :=
  match readTagAndGetValue extension with
  | none => .error .ExtensionValueInvalid
  | some (tag, contents, rest) =>
    if tag = 48 then
      match bitStringNoUnusedBits contents with
      | none => .error .ExtensionValueInvalid
      | some (public_key, r1) =>
        match bitStringNoUnusedBits r1 with
        | none => .error .ExtensionValueInvalid
        | some (signature, r2) =>
          if r2 = [] then
            match decodePk public_key with
            | none => .error .ExtensionValueInvalid
            | some peer_key =>
              if rest = [] then .ok ⟨peer_key, signature⟩
              else .error .ExtensionValueInvalid
          else .error .ExtensionValueInvalid
    else .error .ExtensionValueInvalid

/-- `verify_libp2p_signature` (verifier.rs lines 61-75): the decoded peer
key must verify the extension's signature over
`LIBP2P_SIGNING_PREFIX ++ x509_pkey_bytes`. -/
def verify_libp2p_signature (pkVerify : PkVerifier) (ext : Libp2pExtension)
    (x509_pkey_bytes : List Nat) : Except WError Unit :=
  if pkVerify ext.peer_key (LIBP2P_SIGNING_PREFIX_BYTES ++ x509_pkey_bytes) ext.signature
  then .ok ()
  else .error .UnknownIssuer

/-- The extension scan of `parse_certificate` (verifier.rs lines 91-101):
the `iterate` callback with the mutable `libp2p_extension` slot made an
explicit accumulator. A second libp2p OID occurrence is `BadDER`; a first
occurrence is parsed; an unrecognized critical extension is
`UnsupportedCriticalExtension`; anything else is skipped. -/
def scanExtensions (decodePk : PkDecoder) :
    List Extension → Option Libp2pExtension → Except WError (Option Libp2pExtension)
  | [], acc => .ok acc
  | e :: rest, acc =>
    if e.oid = LIBP2P_OID_BYTES then
      match acc with
      | some _ => .error .BadDER
      | none =>
        match parse_libp2p_extension decodePk e.value with
        | .error err => .error err
        | .ok ext => scanExtensions decodePk rest (some ext)
    else if e.critical then .error .UnsupportedCriticalExtension
    else scanExtensions decodePk rest acc

/-- `parse_certificate` (verifier.rs lines 85-104): parse via the external
x509 crate, scan the extensions, and require the libp2p extension to be
present (`UnknownIssuer` otherwise). -/
def parse_certificate (parseX509 : X509Parser) (decodePk : PkDecoder)
    (certificate : List Nat) : Except WError (X509Certificate × Libp2pExtension) :=
  match parseX509 certificate with
  | .error e => .error e
  | .ok parsed =>
    match scanExtensions decodePk parsed.extensions none with
    | .error e => .error e
    | .ok none => .error .UnknownIssuer
    | .ok (some ext) => .ok (parsed, ext)

/-- `verify_presented_certs` (verifier.rs lines 106-118): exactly one
certificate (`NoCertificatesPresented` otherwise — a non-singleton list is
exactly `len() != 1`), parsed and scanned, then the webpki self-signature
check at the current time, then the libp2p binding signature over the
certificate's own subject public key. `now` is the value `get_time()`
returns at the time of check. -/
def verify_presented_certs (parseX509 : X509Parser) (decodePk : PkDecoder)
    (pkVerify : PkVerifier) (now : Nat) (presented_certs : List (List Nat)) :
    Except TLSError Unit :=
  match presented_certs with
  | [certificate] =>
    match parse_certificate parseX509 decodePk certificate with
    | .error e => .error (.WebPKIError e)
    | .ok (cert, ext) =>
      match cert.dasCheck now with
      | .error e => .error (.WebPKIError e)
      | .ok () =>
        match verify_libp2p_signature pkVerify ext cert.spkiKey with
        | .error e => .error (.WebPKIError e)
        | .ok () => .ok ()
  | _ => .error .NoCertificatesPresented

/-- `Libp2pCertificateVerifier::verify_server_cert` (verifier.rs lines
41-46): the root store, DNS name and OCSP response arguments are ignored;
the check is `verify_presented_certs` on the presented list. -/
def verify_server_cert (parseX509 : X509Parser) (decodePk : PkDecoder)
    (pkVerify : PkVerifier) (now : Nat) (_roots : List (List Nat))
    (presented_certs : List (List Nat)) (_dns_name : List Nat)
    (_ocsp_response : List Nat) : Except TLSError Unit :=
  verify_presented_certs parseX509 decodePk pkVerify now presented_certs

/-- `Libp2pCertificateVerifier::verify_client_cert` (verifier.rs lines
167-171): the DNS name argument is ignored; the check is
`verify_presented_certs` on the presented list. -/
def verify_client_cert (parseX509 : X509Parser) (decodePk : PkDecoder)
    (pkVerify : PkVerifier) (now : Nat) (presented_certs : List (List Nat))
    (_dns_name : Option (List Nat)) : Except TLSError Unit :=
  verify_presented_certs parseX509 decodePk pkVerify now presented_certs

/-- `extract_peerid_or_panic` (verifier.rs lines 194-198), up to the hashing
into a PeerId: the peer key of the parsed certificate's libp2p extension.
The documented panic on an invalid certificate is modelled as `none`. -/
def extract_peer_key (parseX509 : X509Parser) (decodePk : PkDecoder)
    (certificate : List Nat) : Option PublicKey :=
  match parse_certificate parseX509 decodePk certificate with
  | .error _ => none
  | .ok (_, ext) => some ext.peer_key

/-- Modelled from the spec: DER definite-length encoding (short form, 0x81,
0x82) as produced by the certificate binder for the Libp2p Extension payload
(`make_cert` in src/misc/x509/src/certificate.rs is not under src/; spec
§4.1 step 4 and §6 fix the payload format). Lengths ≥ 65536 are outside the
model (ring's reader rejects them anyway). -/
def derLen (n : Nat) : List Nat :=
  if n < 128 then [n]
  else if n < 256 then [129, n]
  else [130, n / 256, n % 256]

/-- Modelled from the spec: one DER TLV with the given tag and contents. -/
def derTLV (tag : Nat) (contents : List Nat) : List Nat :=
  tag :: (derLen contents.length ++ contents)

/-- Modelled from the spec: a DER BIT STRING (tag 0x03) with zero unused
bits. -/
def derBitString (bytes : List Nat) : List Nat :=
  derTLV 3 (0 :: bytes)

/-- Modelled from the spec: the Libp2p Extension payload, §6:
`SEQUENCE { BIT STRING peer_public_key, BIT STRING signature }`. -/
def makeExtensionPayload (peerPublicKey signature : List Nat) : List Nat :=
  derTLV 48 (derBitString peerPublicKey ++ derBitString signature)

/-- A long-term identity keypair, consumed as an opaque capability: its
public key's canonical encoding and its signing function. -/
structure Keypair where
  pubEncoding : List Nat
  sign : List Nat → List Nat

/-- A freshly generated session keypair, of which the certificate only
exposes the subject-public-key bytes. -/
structure SessionKeypair where
  pubBytes : List Nat

/-- Modelled from the spec: the Identity-to-Certificate Binder `make_cert`
(src/misc/x509/src/certificate.rs, not under src/), following §4.1:
sign `PREFIX ++ session_public_key_bytes` with the identity key, encode
`(encode(identity_public_key), signature)` as the Libp2p Extension payload,
and build a self-signed certificate over the session key embedding that
payload under the libp2p OID, non-critical. The webpki self-signature check
of the honestly self-signed certificate succeeds (`dasCheck` ok). -/
def generate_certificate (kp : Keypair) (session : SessionKeypair) : X509Certificate :=
  { extensions :=
      [⟨LIBP2P_OID_BYTES, false,
        makeExtensionPayload kp.pubEncoding
          (kp.sign (LIBP2P_SIGNING_PREFIX_BYTES ++ session.pubBytes))⟩],
    spkiKey := session.pubBytes,
    dasCheck := fun _ => .ok () }

/-! ## QUIC transport (src/transports/quic/src/lib.rs) -/

/-- An IPv4 or IPv6 address. IPv4 carries its four octets, IPv6 its eight
16-bit segments. -/
inductive IpAddr where
  | v4 (a b c d : Nat)
  | v6 (s1 s2 s3 s4 s5 s6 s7 s8 : Nat)
deriving DecidableEq, Repr

/-- `IpAddr::is_unspecified`: all-zero address (0.0.0.0 or ::). -/
def IpAddr.is_unspecified : IpAddr → Bool
  | .v4 a b c d => a = 0 && b = 0 && c = 0 && d = 0
  | .v6 s1 s2 s3 s4 s5 s6 s7 s8 =>
    s1 = 0 && s2 = 0 && s3 = 0 && s4 = 0 && s5 = 0 && s6 = 0 && s7 = 0 && s8 = 0

/-- `std::net::SocketAddr`. -/
structure SocketAddr where
  ip : IpAddr
  port : Nat
deriving DecidableEq, Repr

/-- Multiaddr protocol segments used by the transport. -/
inductive MProtocol where
  | ip4 (ip : IpAddr)
  | ip6 (ip : IpAddr)
  | udp (port : Nat)
  | tcp (port : Nat)
  | quic
deriving DecidableEq, Repr

/-- A multiaddr as its protocol list. -/
abbrev Multiaddr : Type := List MProtocol

/-- `multiaddr_to_socketaddr` (quic lib.rs lines 256-275): exactly three
protocol segments, IP then UDP port then QUIC; anything else is an error.
(The source takes the first three and rejects a fourth, which on a list is
exactly the two three-segment patterns below.) -/
def multiaddr_to_socketaddr (addr : Multiaddr) : Option SocketAddr :=
  match addr with
  | [.ip4 ip, .udp port, .quic] => some ⟨ip, port⟩
  | [.ip6 ip, .udp port, .quic] => some ⟨ip, port⟩
  | _ => none

/-- `ip_to_multiaddr` (external libp2p-core helper used at quic lib.rs line
128): the IP segment followed by the given trailing protocols. -/
def ip_to_multiaddr (ip : IpAddr) (rest : List MProtocol) : Multiaddr :=
  (match ip with
   | .v4 a b c d => MProtocol.ip4 (.v4 a b c d)
   | .v6 s1 s2 s3 s4 s5 s6 s7 s8 => MProtocol.ip6 (.v6 s1 s2 s3 s4 s5 s6 s7 s8)) :: rest

/-- quinn endpoint errors, as far as the transport distinguishes them. -/
inductive EndpointError where
  | socketConnectionRefused
  | otherEndpointError (n : Nat)
deriving DecidableEq, Repr

/-- `QuicError` (quic lib.rs lines 87-96). -/
inductive QuicError where
  | EndpointError (e : EndpointError)
  | ConnectionError (n : Nat)
  | ConnectError (n : Nat)
deriving DecidableEq, Repr

/-- `TransportError` (external libp2p-core): unsupported multiaddr or a
transport-specific error. -/
inductive TransportError where
  | MultiaddrNotSupported (addr : Multiaddr)
  | Other (e : QuicError)
deriving DecidableEq, Repr

/-- The socket I/O a successful `dial` goes on to perform: binding the
ephemeral local endpoint `([0u8; 16], 0)` and connecting to the remote. An
error result performs none of it. -/
structure DialAction where
  bindAddr : SocketAddr
  remote : SocketAddr
deriving DecidableEq, Repr

/-- `Transport::dial` for `QuicConfig` (quic lib.rs lines 230-252): convert
the multiaddr (failure: `MultiaddrNotSupported`); refuse a zero port or
unspecified IP with `EndpointError(Socket(ConnectionRefused))` before any
bind or connect; otherwise bind the all-zero ephemeral endpoint and
connect. -/
def dial (addr : Multiaddr) : Except TransportError DialAction :=
  match multiaddr_to_socketaddr addr with
  | none => .error (.MultiaddrNotSupported addr)
  | some socket_addr =>
    if socket_addr.port = 0 || socket_addr.ip.is_unspecified then
      .error (.Other (.EndpointError .socketConnectionRefused))
    else
      .ok ⟨⟨.v6 0 0 0 0 0 0 0 0, 0⟩, socket_addr⟩

/-- `ListenerEvent` (external libp2p-core): a new-address announcement, an
inbound connection upgrade (remote and local multiaddrs), or an expired
address. -/
inductive ListenerEvent where
  | NewAddress (a : Multiaddr)
  | Upgrade (remote_addr : Multiaddr) (local_addr : Multiaddr)
  | AddressExpired (a : Multiaddr)
deriving DecidableEq, Repr

/-- Whether an event is a new-address announcement. -/
def ListenerEvent.isNewAddress : ListenerEvent → Bool
  | .NewAddress _ => true
  | _ => false

/-- `QuicIncoming::poll_next` (quic lib.rs lines 120-139), applied to the
whole sequence of inbound handshakes the bound socket yields: every event
is an `Upgrade` whose `remote_addr` is rebuilt from the peer socket address
and whose `local_addr` is the *original* multiaddr the listener was given
(`self.addr.clone()`); no other event kind is ever produced. -/
def quicIncomingEvents (addr : Multiaddr) (incoming : List SocketAddr) :
    List ListenerEvent :=
  incoming.map fun peer =>
    .Upgrade (ip_to_multiaddr peer.ip [.udp peer.port, .quic]) addr

/-- `Transport::listen_on` for `QuicConfig` (quic lib.rs lines 215-228):
convert the multiaddr, bind (`bindResult`, failure returned synchronously),
spawn the endpoint driver with `tokio::spawn(driver.map_err(drop).compat())`
— `driverOutcome`, the driver task's eventual result, is discarded by
`map_err(drop)` and never reaches the returned listener — and return the
`QuicIncoming` stream of upgrade events. -/
def listen_on (addr : Multiaddr) (bindResult : Except EndpointError (List SocketAddr))
    (driverOutcome : Except EndpointError Unit) :
    Except TransportError (List ListenerEvent) :=
  match multiaddr_to_socketaddr addr with
  | none => .error (.MultiaddrNotSupported addr)
  | some _ =>
    match bindResult with
    | .error e => .error (.Other (.EndpointError e))
    | .ok incoming =>
      let _ := driverOutcome
      .ok (quicIncomingEvents addr incoming)

/-- quinn `ConnectionError`, as far as the muxer distinguishes it. -/
inductive ConnectionError where
  | LocallyClosed
  | otherConnectionError (n : Nat)
deriving DecidableEq, Repr

/-- `Poll<T>`. -/
inductive Poll (α : Type) where
  | pending
  | ready (a : α)
deriving DecidableEq, Repr

/-- A bidirectional substream handle (send, recv), by id. -/
structure Substream where
  sid : Nat
deriving DecidableEq, Repr

/-- What one call to `SyncQuicMuxer::poll_inbound` (quic lib.rs lines
160-174) produces, given the state of the connection driver poll and of the
`bi_streams` poll: the driver is polled first — `Ok(())` hits the
`unreachable!` panic, an error is returned as the fatal connection error —
then `bi_streams`: an exhausted stream source yields
`Err(ConnectionError::LocallyClosed)` rather than `Pending`. -/
inductive PollInboundResult where
  | pending
  | panicked
  | err (e : ConnectionError)
  | stream (s : Substream)
deriving DecidableEq, Repr

/-- `SyncQuicMuxer::poll_inbound` (quic lib.rs lines 160-174). -/
def poll_inbound (driver : Poll (Except ConnectionError Unit))
    (bi_streams : Poll (Option (Except ConnectionError Substream))) :
    PollInboundResult :=
  match driver with
  | .ready (.ok ()) => .panicked
  | .ready (.error e) => .err e
  | .pending =>
    match bi_streams with
    | .ready (some (.ok s)) => .stream s
    | .ready (some (.error e)) => .err e
    | .ready none => .err .LocallyClosed
    | .pending => .pending

/-! ## Helper lemmas: DER round-trip -/

theorem readDerLength_derLen (n : Nat) (xs : List Nat) (h : n < 65536) :
    readDerLength (derLen n ++ xs) = some (n, xs) := by
  unfold derLen readDerLength
  by_cases h1 : n < 128
  · simp [h1]
  · by_cases h2 : n < 256
    · simp [h1, h2, readDerLength]
    · simp [h1, h2, readDerLength]
      omega

theorem readTagAndGetValue_derTLV (tag : Nat) (contents rest : List Nat)
    (htag : tag % 32 ≠ 31) (hlen : contents.length < 65536) :
    readTagAndGetValue (derTLV tag contents ++ rest) = some (tag, contents, rest) := by
  unfold derTLV readTagAndGetValue
  simp only [List.cons_append, List.append_assoc]
  rw [readDerLength_derLen contents.length (contents ++ rest) hlen]
  simp [htag, List.take_left, List.drop_left]

theorem bitStringNoUnusedBits_derBitString (bytes rest : List Nat)
    (h : bytes.length + 1 < 65536) :
    bitStringNoUnusedBits (derBitString bytes ++ rest) = some (bytes, rest) := by
  unfold derBitString bitStringNoUnusedBits
  rw [readTagAndGetValue_derTLV 3 (0 :: bytes) rest (by decide) (by simpa using h)]
  simp

theorem derLen_length_le (n : Nat) : (derLen n).length ≤ 3 := by
  unfold derLen
  split
  · simp
  · split <;> simp

theorem derBitString_length_le (bytes : List Nat) :
    (derBitString bytes).length ≤ bytes.length + 5 := by
  unfold derBitString derTLV
  have hd := derLen_length_le (bytes.length + 1)
  simp only [List.length_cons, List.length_append]
  omega

theorem parse_libp2p_extension_make (decodePk : PkDecoder) (pubE sig : List Nat)
    (pk : PublicKey) (hdec : decodePk pubE = some pk)
    (hp : pubE.length < 30000) (hs : sig.length < 30000) :
    parse_libp2p_extension decodePk (makeExtensionPayload pubE sig) = .ok ⟨pk, sig⟩ := by
  have hbp := derBitString_length_le pubE
  have hbs := derBitString_length_le sig
  have e1 : readTagAndGetValue (makeExtensionPayload pubE sig)
      = some (48, derBitString pubE ++ derBitString sig, []) := by
    have e0 := readTagAndGetValue_derTLV 48 (derBitString pubE ++ derBitString sig) []
      (by decide) (by simp only [List.length_append]; omega)
    simpa [makeExtensionPayload] using e0
  have e2 : bitStringNoUnusedBits (derBitString pubE ++ derBitString sig)
      = some (pubE, derBitString sig) :=
    bitStringNoUnusedBits_derBitString pubE (derBitString sig) (by omega)
  have e3 : bitStringNoUnusedBits (derBitString sig) = some (sig, []) := by
    have e0 := bitStringNoUnusedBits_derBitString sig [] (by omega)
    simpa using e0
  unfold parse_libp2p_extension
  rw [e1]
  simp [e2, e3, hdec]

/-! ## Claims -/

/-- C1: for every valid identity key pair (one whose signatures verify under
its public key's canonical encoding, `hval`, and whose encoding the external
codec round-trips, `hdec`), verifying the one-element certificate list
produced by the binder succeeds, and the peer key extracted from the
certificate equals the original identity public key's canonical encoding.
`hparse` says the external x509 parser recovers the generated certificate
from its DER serialization; the length bounds keep the extension payload
within ring's two-byte DER length forms. -/
theorem c1_generate_then_verify_roundtrip
    (parseX509 : X509Parser) (decodePk : PkDecoder) (pkVerify : PkVerifier)
    (kp : Keypair) (session : SessionKeypair) (certBytes : List Nat) (now : Nat)
    (hval : ∀ m, pkVerify kp.pubEncoding m (kp.sign m) = true)
    (hdec : decodePk kp.pubEncoding = some kp.pubEncoding)
    (hparse : parseX509 certBytes = .ok (generate_certificate kp session))
    (hp : kp.pubEncoding.length < 30000)
    (hs : (kp.sign (LIBP2P_SIGNING_PREFIX_BYTES ++ session.pubBytes)).length < 30000) :
    verify_presented_certs parseX509 decodePk pkVerify now [certBytes] = .ok ()
    ∧ extract_peer_key parseX509 decodePk certBytes = some kp.pubEncoding := by
  have hext := parse_libp2p_extension_make decodePk kp.pubEncoding
    (kp.sign (LIBP2P_SIGNING_PREFIX_BYTES ++ session.pubBytes)) kp.pubEncoding hdec hp hs
  have hscan : scanExtensions decodePk (generate_certificate kp session).extensions none
      = .ok (some ⟨kp.pubEncoding,
                   kp.sign (LIBP2P_SIGNING_PREFIX_BYTES ++ session.pubBytes)⟩) := by
    simp [generate_certificate, scanExtensions, hext]
  have hpc : parse_certificate parseX509 decodePk certBytes
      = .ok (generate_certificate kp session,
             ⟨kp.pubEncoding, kp.sign (LIBP2P_SIGNING_PREFIX_BYTES ++ session.pubBytes)⟩) := by
    simp [parse_certificate, hparse, hscan]
  constructor
  · simp [verify_presented_certs, hpc, generate_certificate, verify_libp2p_signature, hval]
  · simp [extract_peer_key, hpc]

def kpW : Keypair := ⟨[1, 2], fun m => 7 :: m⟩

def sessionW : SessionKeypair := ⟨[9]⟩

def pkVerifyW : PkVerifier := fun k m s => decide (k = [1, 2] ∧ s = 7 :: m)

def decodePkW : PkDecoder := fun b => some b

def parseX509W : X509Parser := fun _ => .ok (generate_certificate kpW sessionW)

/-- Witness for C1 at a concrete keypair, session key and certificate. -/
theorem c1_witness :
    verify_presented_certs parseX509W decodePkW pkVerifyW 0 [[0]] = .ok ()
    ∧ extract_peer_key parseX509W decodePkW [0] = some kpW.pubEncoding :=
  c1_generate_then_verify_roundtrip parseX509W decodePkW pkVerifyW kpW sessionW [0] 0
    (fun m => by simp [pkVerifyW, kpW])
    (by simp [decodePkW])
    rfl
    (by decide)
    (by decide)

/-- C2: the binding check of `verify_libp2p_signature` succeeds exactly when
the extension's decoded long-term key verifies its signature over the
21-byte domain-separation constant concatenated with the certificate's own
subject-public-key bytes; and that constant has exactly 21 bytes. -/
theorem c2_binding_check (pkVerify : PkVerifier) (ext : Libp2pExtension)
    (spki : List Nat) :
    (verify_libp2p_signature pkVerify ext spki = .ok ()
      ↔ pkVerify ext.peer_key (LIBP2P_SIGNING_PREFIX_BYTES ++ spki) ext.signature = true)
    ∧ LIBP2P_SIGNING_PREFIX_BYTES.length = 21 := by
  refine ⟨?_, rfl⟩
  unfold verify_libp2p_signature
  by_cases h : pkVerify ext.peer_key (LIBP2P_SIGNING_PREFIX_BYTES ++ spki) ext.signature = true
  · simp [h]
  · simp [h]

/-- C3: any presented-certificate list whose length is not one is rejected
with exactly `NoCertificatesPresented`, for every choice of the parsing and
key collaborators — so the failure is decided before and without any
certificate parsing and is never a decoding (`WebPKIError`) error. -/
theorem c3_cardinality (parseX509 : X509Parser) (decodePk : PkDecoder)
    (pkVerify : PkVerifier) (now : Nat) (presented : List (List Nat))
    (h : presented.length ≠ 1) :
    verify_presented_certs parseX509 decodePk pkVerify now presented
      = .error .NoCertificatesPresented := by
  unfold verify_presented_certs
  cases presented with
  | nil => rfl
  | cons a t =>
    cases t with
    | nil => simp at h
    | cons b t2 => rfl

/-- Witness for C3: two copies of the valid certificate of `c1_witness`. -/
theorem c3_witness :
    (([[0], [0]] : List (List Nat)).length ≠ 1)
    ∧ verify_presented_certs parseX509W decodePkW pkVerifyW 0 [[0], [0]]
      = .error .NoCertificatesPresented :=
  ⟨by decide, c3_cardinality parseX509W decodePkW pkVerifyW 0 [[0], [0]] (by decide)⟩

/-- C10: peer-certificate verification depends only on the presented list
(and the shared time of check): `verify_server_cert` gives equal results
for arbitrary differing root stores, DNS names and OCSP responses, and both
it and `verify_client_cert` are the identical `verify_presented_certs`
check on the same list. -/
theorem c10_verifier_ignores_context (parseX509 : X509Parser) (decodePk : PkDecoder)
    (pkVerify : PkVerifier) (now : Nat) (roots roots2 certs : List (List Nat))
    (dns dns2 ocsp ocsp2 : List Nat) (dnsOpt : Option (List Nat)) :
    verify_server_cert parseX509 decodePk pkVerify now roots certs dns ocsp
      = verify_server_cert parseX509 decodePk pkVerify now roots2 certs dns2 ocsp2
    ∧ verify_server_cert parseX509 decodePk pkVerify now roots certs dns ocsp
      = verify_presented_certs parseX509 decodePk pkVerify now certs
    ∧ verify_client_cert parseX509 decodePk pkVerify now certs dnsOpt
      = verify_presented_certs parseX509 decodePk pkVerify now certs :=
  ⟨rfl, rfl, rfl⟩

/-- Helper: extensions whose OID is not the libp2p one and that are not
critical are all skipped by the scan, leaving the accumulator unchanged. -/
theorem scanExtensions_skips_all (decodePk : PkDecoder) (exts : List Extension)
    (acc : Option Libp2pExtension)
    (h : ∀ e ∈ exts, e.oid ≠ LIBP2P_OID_BYTES ∧ e.critical = false) :
    scanExtensions decodePk exts acc = .ok acc := by
  induction exts with
  | nil => rfl
  | cons e t ih =>
    have he := h e (by simp)
    simp [scanExtensions, he.1, he.2, ih (fun x hx => h x (by simp [hx]))]

def certTwoLibp2pFirstBadW : X509Certificate :=
  { extensions := [⟨LIBP2P_OID_BYTES, false, []⟩,
                   ⟨LIBP2P_OID_BYTES, false, makeExtensionPayload [1, 2] [3]⟩],
    spkiKey := [9],
    dasCheck := fun _ => .ok () }

def parseX509TwoBadW : X509Parser := fun _ => .ok certTwoLibp2pFirstBadW

/-- Counterexample to C4 as stated: a certificate whose extension list has
two libp2p-OID occurrences, the first malformed (empty payload) and the
second individually valid, is rejected with `ExtensionValueInvalid` — the
malformed-extension error from parsing the first occurrence — and not with
the duplicate-extension `BadDER` error, so the duplicate error is not
independent of the occurrences' individual validity. -/
theorem c4_counterexample :
    parse_certificate parseX509TwoBadW decodePkW [0] = .error .ExtensionValueInvalid
    ∧ WError.ExtensionValueInvalid ≠ WError.BadDER := by
  exact ⟨rfl, by decide⟩

/-- C4 (amended): during the extension scan, (i) a second libp2p-OID
occurrence after a first occurrence whose payload parsed successfully fails
with `BadDER`, independent of the second occurrence's contents, criticality
and of anything after it; (ii) any other extension marked critical fails
with `UnsupportedCriticalExtension` even when a fully valid libp2p
extension is present, in either order; (iii) unknown non-critical
extensions are skipped; (iv) absence of the libp2p extension (with all
other extensions non-critical) fails with `UnknownIssuer`. -/
theorem c4_extension_scan (decodePk : PkDecoder) (v1 v2 w bytes : List Nat)
    (c1 c2 : Bool) (oid2 : List Nat) (rest : List Extension)
    (ext : Libp2pExtension) (parseX509 : X509Parser) (cert : X509Certificate)
    (hv1 : parse_libp2p_extension decodePk v1 = .ok ext)
    (hoid : oid2 ≠ LIBP2P_OID_BYTES)
    (hcert : parseX509 bytes = .ok cert)
    (hnone : ∀ e ∈ cert.extensions, e.oid ≠ LIBP2P_OID_BYTES ∧ e.critical = false) :
    scanExtensions decodePk
        (⟨LIBP2P_OID_BYTES, c1, v1⟩ :: ⟨LIBP2P_OID_BYTES, c2, v2⟩ :: rest) none
      = .error .BadDER
    ∧ scanExtensions decodePk [⟨LIBP2P_OID_BYTES, c1, v1⟩, ⟨oid2, true, w⟩] none
      = .error .UnsupportedCriticalExtension
    ∧ scanExtensions decodePk [⟨oid2, true, w⟩, ⟨LIBP2P_OID_BYTES, c1, v1⟩] none
      = .error .UnsupportedCriticalExtension
    ∧ (∀ acc exts, scanExtensions decodePk (⟨oid2, false, w⟩ :: exts) acc
        = scanExtensions decodePk exts acc)
    ∧ parse_certificate parseX509 decodePk bytes = .error .UnknownIssuer := by
  refine ⟨?_, ?_, ?_, ?_, ?_⟩
  · simp [scanExtensions, hv1]
  · simp [scanExtensions, hv1, hoid]
  · simp [scanExtensions, hoid]
  · intro acc exts
    simp [scanExtensions, hoid]
  · simp [parse_certificate, hcert, scanExtensions_skips_all decodePk cert.extensions none hnone]

def certNoLibp2pW : X509Certificate :=
  { extensions := [⟨[9], false, [4]⟩],
    spkiKey := [9],
    dasCheck := fun _ => .ok () }

def parseX509NoLibp2pW : X509Parser := fun _ => .ok certNoLibp2pW

/-- Witness for the amended C4 at concrete extension payloads. -/
theorem c4_extension_scan_witness :
    scanExtensions decodePkW
        (⟨LIBP2P_OID_BYTES, false, makeExtensionPayload [1, 2] [3]⟩ ::
          ⟨LIBP2P_OID_BYTES, false, []⟩ :: []) none
      = .error .BadDER
    ∧ scanExtensions decodePkW
        [⟨LIBP2P_OID_BYTES, false, makeExtensionPayload [1, 2] [3]⟩, ⟨[9], true, [4]⟩] none
      = .error .UnsupportedCriticalExtension
    ∧ scanExtensions decodePkW
        [⟨[9], true, [4]⟩, ⟨LIBP2P_OID_BYTES, false, makeExtensionPayload [1, 2] [3]⟩] none
      = .error .UnsupportedCriticalExtension
    ∧ (∀ acc exts, scanExtensions decodePkW (⟨[9], false, [4]⟩ :: exts) acc
        = scanExtensions decodePkW exts acc)
    ∧ parse_certificate parseX509NoLibp2pW decodePkW [0] = .error .UnknownIssuer :=
  c4_extension_scan decodePkW (makeExtensionPayload [1, 2] [3]) [] [4] [0] false false
    [9] [] ⟨[1, 2], [3]⟩ parseX509NoLibp2pW certNoLibp2pW
    rfl (by decide) rfl (by decide)

/-- Helper: every failure of the extension-payload parser is the single
collapsed `ExtensionValueInvalid` value. -/
theorem parse_libp2p_extension_error_collapsed (decodePk : PkDecoder)
    (v : List Nat) (e : WError)
    (h : parse_libp2p_extension decodePk v = .error e) :
    e = .ExtensionValueInvalid := by
  unfold parse_libp2p_extension at h
  repeat' split at h
  all_goals simp_all

/-- Helper: every failure of the binding check is `UnknownIssuer`. -/
theorem verify_libp2p_signature_error_collapsed (pkVerify : PkVerifier)
    (ext : Libp2pExtension) (spki : List Nat) (e : WError)
    (h : verify_libp2p_signature pkVerify ext spki = .error e) :
    e = .UnknownIssuer := by
  unfold verify_libp2p_signature at h
  split at h
  all_goals simp_all

def certMalformedExtW : X509Certificate :=
  { extensions := [⟨LIBP2P_OID_BYTES, false, []⟩],
    spkiKey := [9],
    dasCheck := fun _ => .ok () }

def parseX509MalformedW : X509Parser := fun _ => .ok certMalformedExtW

def certBadSigW : X509Certificate :=
  { extensions := [⟨LIBP2P_OID_BYTES, false, makeExtensionPayload [1, 2] [3]⟩],
    spkiKey := [9],
    dasCheck := fun _ => .ok () }

def parseX509BadSigW : X509Parser := fun _ => .ok certBadSigW

def pkVerifyFalseW : PkVerifier := fun _ _ _ => false

/-- Counterexample to C5 as stated: a certificate with a malformed libp2p
extension is rejected with `WebPKIError ExtensionValueInvalid`, while a
certificate whose extension decodes but whose binding signature does not
verify is rejected with `WebPKIError UnknownIssuer`; the two error values
differ, so the two failures are distinguishable. -/
theorem c5_counterexample :
    verify_presented_certs parseX509MalformedW decodePkW pkVerifyFalseW 0 [[0]]
      = .error (.WebPKIError .ExtensionValueInvalid)
    ∧ verify_presented_certs parseX509BadSigW decodePkW pkVerifyFalseW 0 [[0]]
      = .error (.WebPKIError .UnknownIssuer)
    ∧ (TLSError.WebPKIError .ExtensionValueInvalid
        ≠ TLSError.WebPKIError .UnknownIssuer) := by
  exact ⟨rfl, rfl, by decide⟩

/-- C5 (amended): within each failing stage the error is collapsed to one
value — every extension-decoding failure is reported as the single
`ExtensionValueInvalid` and every binding-verification failure as the
single `UnknownIssuer` (the value a missing extension also produces) — but
the two stages' values are distinct, not indistinguishable. -/
theorem c5_error_collapsing (decodePk : PkDecoder) (pkVerify : PkVerifier)
    (v spki : List Nat) (ext : Libp2pExtension) (e1 e2 : WError)
    (h1 : parse_libp2p_extension decodePk v = .error e1)
    (h2 : verify_libp2p_signature pkVerify ext spki = .error e2) :
    e1 = .ExtensionValueInvalid ∧ e2 = .UnknownIssuer ∧ e1 ≠ e2 := by
  have he1 := parse_libp2p_extension_error_collapsed decodePk v e1 h1
  have he2 := verify_libp2p_signature_error_collapsed pkVerify ext spki e2 h2
  subst he1
  subst he2
  exact ⟨rfl, rfl, by decide⟩

/-- Witness for the amended C5 at a concrete malformed payload and failing
verifier. -/
theorem c5_error_collapsing_witness :
    (WError.ExtensionValueInvalid = WError.ExtensionValueInvalid)
    ∧ (WError.UnknownIssuer = WError.UnknownIssuer)
    ∧ WError.ExtensionValueInvalid ≠ WError.UnknownIssuer :=
  c5_error_collapsing decodePkW pkVerifyFalseW [] [9] ⟨[1, 2], [3]⟩
    .ExtensionValueInvalid .UnknownIssuer rfl rfl

/-- C6: any multiaddr that converts to a socket address with an unspecified
IP or port zero is refused by `dial` with the synchronous
`ConnectionRefused` endpoint error. Only the `.ok` result of `dial` carries
a `DialAction` (the ephemeral bind and the connect), so an error result
performs no bind and no socket I/O. -/
theorem c6_dial_rejects_wildcard (addr : Multiaddr) (sa : SocketAddr)
    (hconv : multiaddr_to_socketaddr addr = some sa)
    (hbad : sa.ip.is_unspecified = true ∨ sa.port = 0) :
    dial addr = .error (.Other (.EndpointError .socketConnectionRefused)) := by
  unfold dial
  rw [hconv]
  have hcond : (sa.port = 0 || sa.ip.is_unspecified) = true := by
    rcases hbad with h | h <;> simp [h]
  simp [hcond]

/-- Witness for C6: dialing /ip4/0.0.0.0/udp/4001/quic. -/
theorem c6_dial_rejects_wildcard_witness :
    dial [.ip4 (.v4 0 0 0 0), .udp 4001, .quic]
      = .error (.Other (.EndpointError .socketConnectionRefused)) :=
  c6_dial_rejects_wildcard [.ip4 (.v4 0 0 0 0), .udp 4001, .quic]
    ⟨.v4 0 0 0 0, 4001⟩ rfl (.inl rfl)

/-- C7 fails on the code: listening on the wildcard address
/ip4/0.0.0.0/udp/0/quic with one inbound handshake yields, as its very
first event, a connection-upgrade event whose local address is still the
original wildcard multiaddr; the stream never yields a new-address
announcement at all (`quicIncomingEvents` only ever builds `Upgrade`
events), contradicting the claimed concrete first `NewAddress` event. -/
theorem c7_no_new_address_event :
    listen_on [.ip4 (.v4 0 0 0 0), .udp 0, .quic] (.ok [⟨.v4 1 2 3 4, 5⟩]) (.ok ())
      = .ok [.Upgrade [.ip4 (.v4 1 2 3 4), .udp 5, .quic]
               [.ip4 (.v4 0 0 0 0), .udp 0, .quic]]
    ∧ (ListenerEvent.Upgrade [.ip4 (.v4 1 2 3 4), .udp 5, .quic]
         [.ip4 (.v4 0 0 0 0), .udp 0, .quic]).isNewAddress = false
    ∧ (∀ addr incoming, (quicIncomingEvents addr incoming).all
         (fun e => !e.isNewAddress) = true) := by
  refine ⟨rfl, rfl, ?_⟩
  intro addr incoming
  simp [quicIncomingEvents, ListenerEvent.isNewAddress]

/-- Counterexample to C8 as stated: the endpoint driver spawned by
`listen_on` has its error discarded by `tokio::spawn(driver.map_err(drop))`,
so a failing driver outcome produces exactly the same application-visible
result as a succeeding one — the failure does not propagate anywhere. -/
theorem c8_counterexample :
    listen_on [.ip4 (.v4 127 0 0 1), .udp 4001, .quic] (.ok [])
        (.error (.otherEndpointError 7))
      = listen_on [.ip4 (.v4 127 0 0 1), .udp 4001, .quic] (.ok []) (.ok ()) := rfl

/-- C8 (amended): a *connection* background driver failure observed by the
muxer propagates through `poll_inbound` as that fatal connection error;
but the *endpoint* driver spawned by `listen_on` has its outcome discarded
(`map_err(drop)`), so its failure never reaches the application. -/
theorem c8_driver_error_propagation (e : ConnectionError)
    (bi : Poll (Option (Except ConnectionError Substream)))
    (addr : Multiaddr) (bindResult : Except EndpointError (List SocketAddr))
    (o1 o2 : Except EndpointError Unit) :
    poll_inbound (.ready (.error e)) bi = .err e
    ∧ listen_on addr bindResult o1 = listen_on addr bindResult o2 :=
  ⟨rfl, rfl⟩

/-- C9: when the incoming-bidirectional-streams source is exhausted
(the connection has closed) and the driver is still pending, a poll of
`poll_inbound` returns the terminal `LocallyClosed` connection error, not
`pending`. -/
theorem c9_closed_connection_locally_closed :
    poll_inbound .pending (.ready none) = .err .LocallyClosed
    ∧ PollInboundResult.err .LocallyClosed ≠ .pending :=
  ⟨rfl, by decide⟩
